import Mathlib

/- Shallow embedding of the metric derivation logic of src/stock-data.py
(function calculate_stock_metrics) and src/multiyear_data.py (function
calculate_stock_metrics_multiyear). Raw statement values are rationals; a
line item the provider did not report is Option.none. A Python runtime
failure that no handler catches (an uncaught TypeError, or an iloc access
on an empty frame) is Except.error. The data fetch itself is external; the
embedding starts from the fetched profile and statement tables. -/

/-- One statement column: a finite map from line item names to rational
values, as an association list. A key that is not in the list models a
line item the provider did not report. -/
structure SeriesQ where
  rows : List (String × ℚ)
  deriving DecidableEq

/-- Pandas Series.get with default None: the first row with the given name. -/
def SeriesQ.get (s : SeriesQ) (k : String) : Option ℚ :=
  (s.rows.find? (fun r => r.1 == k)).map (fun r => r.2)

/-- Pandas Series.get with an explicit default value. -/
def SeriesQ.getD (s : SeriesQ) (k : String) (d : ℚ) : ℚ :=
  (s.get k).getD d

/-- The profile dictionary fields read through info.get in the source. -/
structure Info where
  enterpriseValue : Option ℚ
  totalDebt : Option ℚ
  returnOnEquity : Option ℚ
  returnOnAssets : Option ℚ
  ebitdaMargins : Option ℚ
  deriving DecidableEq

/-- Input bundle of the single period engine, as fetched by
calculate_stock_metrics before line 51: the profile, the three annual
statements (none models an empty frame, some gives its latest column,
which is the column iloc reads at position 0) and the quarterly
financials, one row per line item with its quarterly values most recent
first. hasName models the presence of longName or shortName in the
profile dictionary. -/
structure StockInput where
  hasName : Bool
  info : Info
  financials : Option SeriesQ
  balance_sheet : Option SeriesQ
  cashflow : Option SeriesQ
  quarterly_financials : List (String × List ℚ)
  deriving DecidableEq

/-- A ratio value of the single period engine: a finite rational or the
positive infinity float sentinel produced by the zero denominator branch. -/
inductive RVal where
  | fin (q : ℚ)
  | posInf
  deriving DecidableEq

/-- Output record of the single period engine. Every optional field is
None exactly when the source leaves the corresponding dictionary entry at
its initial None. The operating lease field is initialised to 0 in the
source and is always a plain number when the function returns. -/
structure Metrics where
  ev : Option ℚ
  fcf : Option ℚ
  ebitda : Option ℚ
  total_debt : Option ℚ
  total_equity : Option ℚ
  ebit : Option ℚ
  tax_rate : Option ℚ
  nopat : Option ℚ
  op_lease_liabilities : ℚ
  invested_capital : Option ℚ
  ev_fcf_yield : Option RVal
  debt_to_ebitda : Option RVal
  ev_to_ebitda : Option RVal
  roic : Option RVal
  roe : Option ℚ
  roa : Option ℚ
  ebitda_margin : Option ℚ
  deriving DecidableEq

/-- Line 69 of stock-data.py: quarterly_financials.iloc[:, :4].sum(axis=1).
Per row, the sum of the first four quarterly columns, and of all columns
when fewer than four exist. -/
def ttmOf (qf : List (String × List ℚ)) : SeriesQ :=
  ⟨qf.map (fun r => (r.1, (r.2.take 4).sum))⟩

/-- Lookup of a quarterly row by line item name. -/
def qLookup (qf : List (String × List ℚ)) (k : String) : Option (List ℚ) :=
  (qf.find? (fun r => r.1 == k)).map (fun r => r.2)

/-- Lines 84 to 102 of stock-data.py: total debt resolution. With a non
empty balance sheet the two components are read with default 0 and the
direct profile figure wins when present; because of the defaults neither
component is ever None, so the source branch that would set total debt to
None is unreachable there. -/
def totalDebtOf (total_debt_direct : Option ℚ) (bs : Option SeriesQ) : Option ℚ :=
  match bs with
  | none => none
  | some latest_bs =>
    let short_term_debt := latest_bs.getD ("Short Long Term Debt") 0
    let long_term_debt := latest_bs.getD ("Long Term Debt") 0
    match total_debt_direct with
    | some td => some td
    | none => some (short_term_debt + long_term_debt)

/-- Lines 106 to 112 of stock-data.py. -/
def totalEquityOf (bs : Option SeriesQ) : Option ℚ :=
  match bs with
  | none => none
  | some latest_bs => latest_bs.get ("Total Equity Gross Minority Interest")

/-- Lines 118 to 137 of stock-data.py: the triple (stored EBIT, tax rate,
NOPAT). All three stay None when the financials frame is empty; the
stored EBIT is the TTM lookup whenever the frame is non empty; the tax
rate and NOPAT are computed only when EBIT, the tax provision and the
pretax income are all present and the pretax income is nonzero. -/
def taxNopatOf (financials : Option SeriesQ) (ttm_data : SeriesQ) :
    Option ℚ × Option ℚ × Option ℚ :=
  match financials with
  | none => (none, none, none)
  | some _ =>
    let ebit := ttm_data.get ("EBIT")
    let tax_expense := ttm_data.get ("Tax Provision")
    let ebt := ttm_data.get ("Pretax Income")
    match ebit, tax_expense, ebt with
    | some e, some t, some p =>
      if p ≠ 0 then
        let tax_rate := max 0 (min 1 (t / p))
        (some e, some tax_rate, some (e * (1 - tax_rate)))
      else (some e, none, none)
    | eb, _, _ => (eb, none, none)

/-- Lines 141 to 148 of stock-data.py: the two capital lease line items
are read without a default and added; when the balance sheet is non empty
and either item is missing, Python adds None and raises TypeError, which
no handler catches. An empty balance sheet keeps the default 0. -/
def opLeasesOf (bs : Option SeriesQ) : Except Unit ℚ :=
  match bs with
  | none => .ok 0
  | some latest_bs =>
    match latest_bs.get ("Long Term Capital Lease Obligation"),
          latest_bs.get ("Current Capital Lease Obligation") with
    | some l, some c => .ok (l + c)
    | _, _ => .error ()

/-- Lines 151 to 163 of stock-data.py: invested capital is debt plus
equity, with the lease sum added only when it is positive. -/
def investedCapitalOf (total_debt total_equity : Option ℚ) (op_leases : ℚ) : Option ℚ :=
  match total_debt, total_equity with
  | some d, some e =>
    let ic := d + e
    some (if 0 < op_leases then ic + op_leases else ic)
  | _, _ => none

/-- Lines 166 to 216 of stock-data.py: the ratio block shared verbatim by
the four ratios of the single period engine. The None checks keep None
out of the arithmetic, so the except handlers of the source never fire;
None == 0 is False in Python, hence an absent denominator always leaves
the ratio at its initial None, while a zero denominator yields the
infinity sentinel for a positive numerator and 0 in every other case,
including an absent numerator. -/
def ratioPolicy (num den : Option ℚ) : Option RVal :=
  match num, den with
  | some n, some d =>
    if d ≠ 0 then some (.fin (n / d))
    else if 0 < n then some .posInf else some (.fin 0)
  | none, some d => if d = 0 then some (.fin 0) else none
  | _, none => none

/-- The metrics record built by calculate_stock_metrics on the path where
no exception is raised, given the latest cashflow column and the computed
operating lease sum. -/
def mkMetrics (inp : StockInput) (cf : SeriesQ) (op_leases : ℚ) : Metrics :=
  let ttm_data := ttmOf inp.quarterly_financials
  let ev := inp.info.enterpriseValue
  let fcf := cf.get ("Free Cash Flow")
  let ebitda := ttm_data.get ("EBITDA")
  let total_debt := totalDebtOf inp.info.totalDebt inp.balance_sheet
  let total_equity := totalEquityOf inp.balance_sheet
  let tn := taxNopatOf inp.financials ttm_data
  let invested_capital := investedCapitalOf total_debt total_equity op_leases
  { ev := ev, fcf := fcf, ebitda := ebitda, total_debt := total_debt,
    total_equity := total_equity, ebit := tn.1, tax_rate := tn.2.1, nopat := tn.2.2,
    op_lease_liabilities := op_leases, invested_capital := invested_capital,
    ev_fcf_yield := ratioPolicy fcf ev,
    debt_to_ebitda := ratioPolicy total_debt ebitda,
    ev_to_ebitda := ratioPolicy ev ebitda,
    roic := ratioPolicy tn.2.2 invested_capital,
    roe := inp.info.returnOnEquity, roa := inp.info.returnOnAssets,
    ebitda_margin := inp.info.ebitdaMargins }

/-- The single period engine, lines 51 to 222 of stock-data.py. The early
gate returns None (ok none) when a statement frame is empty and the
profile has no long or short name; otherwise line 76 reads the latest
cashflow column, which raises on an empty frame, and the lease sum of
lines 141 to 148 may raise as well; on the remaining path the metrics
dictionary is returned. -/
def calculate_stock_metrics (inp : StockInput) : Except Unit (Option Metrics) :=
  if (inp.financials.isNone || inp.balance_sheet.isNone || inp.cashflow.isNone)
      && !inp.hasName then
    .ok none
  else
    match inp.cashflow with
    | none => .error ()
    | some cf =>
      match opLeasesOf inp.balance_sheet with
      | .error e => .error e
      | .ok op_leases => .ok (some (mkMetrics inp cf op_leases))

/-- The metrics record of a successful single period run, and none when
the run returned None or raised. -/
def spResult (inp : StockInput) : Option Metrics :=
  match calculate_stock_metrics inp with
  | .ok (some m) => some m
  | _ => none

/-- Output record of the multi year engine, one per fiscal year column.
The ratios here are plain optional rationals: the multi year ratio blocks
have no zero denominator branch and never produce an infinity sentinel. -/
structure MYMetrics where
  ev : Option ℚ
  fcf : Option ℚ
  ebitda : Option ℚ
  total_debt : Option ℚ
  total_equity : Option ℚ
  ebit : Option ℚ
  tax_rate : Option ℚ
  nopat : Option ℚ
  invested_capital : Option ℚ
  ev_fcf_yield : Option ℚ
  debt_to_ebitda : Option ℚ
  ev_to_ebitda : Option ℚ
  roic : Option ℚ
  deriving DecidableEq

/-- One fiscal year column of the multi year engine: the year label and
the slice of each statement table at that column. A loc lookup whose row
or column is missing raises KeyError, modelled as an absent key here. -/
structure MYPeriod where
  label : ℕ
  fin : SeriesQ
  bs : SeriesQ
  cf : SeriesQ
  deriving DecidableEq

/-- Lines 61 to 66 of multiyear_data.py: the free cash flow line minus
the capital expenditure line; a KeyError from either lookup is caught and
yields None. -/
def myFcf (cf : SeriesQ) : Option ℚ :=
  match cf.get ("Free Cash Flow") with
  | none => none
  | some f =>
    match cf.get ("Capital Expenditure") with
    | none => none
    | some c => some (f - c)

/-- Lines 92 to 102 of multiyear_data.py: the pair (tax rate, NOPAT). The
except clause catches only KeyError, so when both lookups succeed, both
values are truthy (present and nonzero) and the stored EBIT is None, the
multiplication of None raises TypeError, which propagates out of the
whole function. -/
def myTaxNopat (fin_col : SeriesQ) (ebit : Option ℚ) : Except Unit (Option ℚ × Option ℚ) :=
  match fin_col.get ("Pretax Income") with
  | none => .ok (none, none)
  | some ebt =>
    match fin_col.get ("Tax Provision") with
    | none => .ok (none, none)
    | some tax_expense =>
      if ebt ≠ 0 ∧ tax_expense ≠ 0 then
        let tax_rate := max 0 (min 1 (tax_expense / ebt))
        match ebit with
        | some e => .ok (some tax_rate, some (e * (1 - tax_rate)))
        | none => .error ()
      else .ok (none, none)

/-- Lines 117 to 124 of multiyear_data.py: a ratio is computed only under
the Python truthiness test of both operands, so it is present exactly
when numerator and denominator are both present and nonzero. -/
def ratioTruthy (num den : Option ℚ) : Option ℚ :=
  match num, den with
  | some n, some d => if n ≠ 0 ∧ d ≠ 0 then some (n / d) else none
  | _, _ => none

/-- Lines 104 to 108 of multiyear_data.py: debt plus equity, with the
TypeError of adding None caught and turned into None. -/
def investedCapitalMY (total_debt total_equity : Option ℚ) : Option ℚ :=
  match total_debt, total_equity with
  | some d, some e => some (d + e)
  | _, _ => none

/-- The per year metrics record of the multi year engine on the path
where no exception is raised, given the computed tax rate and NOPAT. -/
def mkMYMetrics (ev : Option ℚ) (p : MYPeriod) (tn : Option ℚ × Option ℚ) : MYMetrics :=
  let fcf := myFcf p.cf
  let ebitda := p.fin.get ("EBITDA")
  let total_debt := p.bs.get ("Total Debt")
  let total_equity := p.bs.get ("Total Equity Gross Minority Interest")
  let ebit := p.fin.get ("EBIT")
  let invested_capital := investedCapitalMY total_debt total_equity
  { ev := ev, fcf := fcf, ebitda := ebitda, total_debt := total_debt,
    total_equity := total_equity, ebit := ebit,
    tax_rate := tn.1, nopat := tn.2, invested_capital := invested_capital,
    ev_fcf_yield := ratioTruthy fcf ev,
    debt_to_ebitda := ratioTruthy total_debt ebitda,
    ev_to_ebitda := ratioTruthy ev ebitda,
    roic := ratioTruthy tn.2 invested_capital }

/-- Lines 43 to 126 of multiyear_data.py: the body of one loop iteration. -/
def myPeriodMetrics (ev : Option ℚ) (p : MYPeriod) : Except Unit MYMetrics :=
  match myTaxNopat p.fin (p.fin.get ("EBIT")) with
  | .error e => .error e
  | .ok tn => .ok (mkMYMetrics ev p tn)

/-- Python dict assignment d[k] = v: an existing key keeps its position
and gets the new value, a new key is appended at the end. -/
def dictInsert (k : ℕ) (v : MYMetrics) : List (ℕ × MYMetrics) → List (ℕ × MYMetrics)
  | [] => [(k, v)]
  | (k0, v0) :: rest => if k0 = k then (k, v) :: rest else (k0, v0) :: dictInsert k v rest

/-- The loop of lines 42 to 126 of multiyear_data.py over the year
columns, threading the metrics_by_year dictionary; an exception in any
iteration aborts the whole call with nothing returned. -/
def runPeriods (ev : Option ℚ) (acc : List (ℕ × MYMetrics)) :
    List MYPeriod → Except Unit (List (ℕ × MYMetrics))
  | [] => .ok acc
  | p :: rest =>
    match myPeriodMetrics ev p with
    | .error e => .error e
    | .ok m => runPeriods ev (dictInsert p.label m acc) rest

/-- The multi year engine, lines 39 to 128 of multiyear_data.py, taking
the profile enterprise value and the ordered list of year columns of the
financials table, each paired with its statement slices. -/
def calculate_stock_metrics_multiyear (ev : Option ℚ) (periods : List MYPeriod) :
    Except Unit (List (ℕ × MYMetrics)) :=
  runPeriods ev [] periods

/-- Straight line recursion computing, when every period succeeds, the
list of label and metrics pairs in input order. -/
def myRunSpec (ev : Option ℚ) : List MYPeriod → Option (List (ℕ × MYMetrics))
  | [] => some []
  | p :: rest =>
    match myPeriodMetrics ev p, myRunSpec ev rest with
    | .ok m, some t => some ((p.label, m) :: t)
    | _, _ => none

/-- Modelled from the spec wording of the amended ratio policy: absent
denominator gives absent; a present zero denominator gives the infinity
sentinel for a present positive numerator and 0 in every other case; a
present nonzero denominator gives absent for an absent numerator and
plain division otherwise. -/
def ratioSpec (num den : Option ℚ) : Option RVal :=
  match den with
  | none => none
  | some d =>
    match num with
    | none => if d = 0 then some (.fin 0) else none
    | some n =>
      if d = 0 then (if 0 < n then some .posInf else some (.fin 0))
      else some (.fin (n / d))

/-- Modelled from the spec wording of the amended multi year ratio
policy: plain division when both operands are present and nonzero,
absent in every other case. -/
def ratioTruthySpec (num den : Option ℚ) : Option ℚ :=
  match num, den with
  | some n, some d => if n = 0 ∨ d = 0 then none else some (n / d)
  | _, _ => none

/-- Modelled from the spec wording: NOPAT is ebit times one minus the tax
rate exactly when ebit and the tax rate are both present. -/
def nopatSpec (ebit tax_rate : Option ℚ) : Option ℚ :=
  match tax_rate, ebit with
  | some r, some e => some (e * (1 - r))
  | _, _ => none

/-- Profile with every optional field absent. -/
def infoNone : Info :=
  { enterpriseValue := none, totalDebt := none, returnOnEquity := none,
    returnOnAssets := none, ebitdaMargins := none }

/-- Latest cashflow column holding only the free cash flow line. -/
def cfW2 : SeriesQ := ⟨[("Free Cash Flow", 120)]⟩

/-- Balance sheet column with equity and both capital lease items. -/
def bsW2 : SeriesQ :=
  ⟨[("Total Equity Gross Minority Interest", 500),
    ("Long Term Capital Lease Obligation", 30),
    ("Current Capital Lease Obligation", 10)]⟩

/-- Quarterly financials with five EBITDA quarters and four of each of the
other line items; the TTM sums are 100, 200, 50 and 250. -/
def qfW2 : List (String × List ℚ) :=
  [("EBITDA", [25, 25, 25, 25, 99]),
   ("EBIT", [50, 50, 50, 50]),
   ("Tax Provision", [12, 13, 12, 13]),
   ("Pretax Income", [62, 63, 62, 63])]

/-- Fully populated single period input. -/
def inpW2 : StockInput :=
  { hasName := true,
    info := { enterpriseValue := some 1000, totalDebt := some 300,
              returnOnEquity := none, returnOnAssets := none, ebitdaMargins := none },
    financials := some ⟨[("EBIT", 0)]⟩,
    balance_sheet := some bsW2,
    cashflow := some cfW2,
    quarterly_financials := qfW2 }

/-- The metrics record the engine returns on inpW2. -/
def mW2 : Metrics := mkMetrics inpW2 cfW2 40

/-- Balance sheet column missing the current capital lease line item. -/
def bsC1 : SeriesQ := ⟨[("Long Term Capital Lease Obligation", 30)]⟩

/-- Single period input whose non empty balance sheet lacks one of the two
capital lease line items. -/
def inpC1 : StockInput :=
  { hasName := true, info := infoNone,
    financials := some ⟨[("EBIT", 0)]⟩,
    balance_sheet := some bsC1,
    cashflow := some cfW2,
    quarterly_financials := [] }

/-- Multi year period with pretax income and tax provision present and
nonzero but no EBIT row. -/
def pC1 : MYPeriod :=
  { label := 2023,
    fin := ⟨[("Pretax Income", 250), ("Tax Provision", 50)]⟩,
    bs := ⟨[]⟩, cf := ⟨[]⟩ }

/-- Multi year period with a positive total debt over a zero EBITDA. -/
def pC2 : MYPeriod :=
  { label := 2021, fin := ⟨[("EBITDA", 0)]⟩, bs := ⟨[("Total Debt", 300)]⟩, cf := ⟨[]⟩ }

/-- The metrics record the multi year engine returns on pC2. -/
def mC2 : MYMetrics := mkMYMetrics none pC2 (none, none)

/-- Single period input with tax provision and pretax income present and
nonzero in the quarterly data but no EBIT row. -/
def inpC4 : StockInput :=
  { hasName := true, info := infoNone,
    financials := some ⟨[("EBIT", 0)]⟩, balance_sheet := none, cashflow := some cfW2,
    quarterly_financials := [("Tax Provision", [50]), ("Pretax Income", [250])] }

/-- The metrics record the engine returns on inpC4. -/
def mC4 : Metrics := mkMetrics inpC4 cfW2 0

/-- Quarterly financials realising the worked example with a single
reported quarter per line item. -/
def qfW4 : List (String × List ℚ) :=
  [("EBIT", [200]), ("Tax Provision", [50]), ("Pretax Income", [250])]

/-- Single period input realising the worked tax example. -/
def inpW4 : StockInput :=
  { hasName := true, info := infoNone,
    financials := some ⟨[("EBIT", 0)]⟩, balance_sheet := none, cashflow := some cfW2,
    quarterly_financials := qfW4 }

/-- The metrics record the engine returns on inpW4. -/
def mW4 : Metrics := mkMetrics inpW4 cfW2 0

/-- Latest cashflow column with both the free cash flow and the capital
expenditure line items. -/
def cfC5 : SeriesQ := ⟨[("Free Cash Flow", 120), ("Capital Expenditure", 20)]⟩

/-- Single period input with enterprise value 1000 and a cashflow column
reporting free cash flow 120 and capital expenditure 20. -/
def inpC5 : StockInput :=
  { hasName := true,
    info := { enterpriseValue := some 1000, totalDebt := none, returnOnEquity := none,
              returnOnAssets := none, ebitdaMargins := none },
    financials := some ⟨[("EBIT", 0)]⟩, balance_sheet := none, cashflow := some cfC5,
    quarterly_financials := [] }

/-- The metrics record the engine returns on inpC5. -/
def mC5 : Metrics := mkMetrics inpC5 cfC5 0

/-- Multi year period realising the worked free cash flow example. -/
def pW5 : MYPeriod := { label := 2024, fin := ⟨[]⟩, bs := ⟨[]⟩, cf := cfC5 }

/-- The metrics record the multi year engine returns on pW5 with
enterprise value 1000. -/
def mW5 : MYMetrics := mkMYMetrics (some 1000) pW5 (none, none)

/-- Balance sheet column with equity and lease items but neither debt
component and no direct total debt in the profile. -/
def bsC7 : SeriesQ :=
  ⟨[("Total Equity Gross Minority Interest", 500),
    ("Long Term Capital Lease Obligation", 0),
    ("Current Capital Lease Obligation", 0)]⟩

/-- Single period input with a non empty balance sheet exposing no debt
line item and a profile without the direct total debt figure. -/
def inpC7 : StockInput :=
  { hasName := true, info := infoNone,
    financials := some ⟨[("EBIT", 0)]⟩, balance_sheet := some bsC7,
    cashflow := some cfW2, quarterly_financials := [] }

/-- The metrics record the engine returns on inpC7. -/
def mC7 : Metrics := mkMetrics inpC7 cfW2 0

/-- Benign multi year period. -/
def pOk8 : MYPeriod := { label := 2023, fin := ⟨[("EBITDA", 10)]⟩, bs := ⟨[]⟩, cf := ⟨[]⟩ }

/-- Second benign multi year period with a distinct label. -/
def pW8 : MYPeriod := { label := 2022, fin := ⟨[("EBITDA", 20)]⟩, bs := ⟨[]⟩, cf := ⟨[]⟩ }

/-- The output of the multi year engine on the two benign periods. -/
def outW8 : List (ℕ × MYMetrics) :=
  [(2023, mkMYMetrics none pOk8 (none, none)), (2022, mkMYMetrics none pW8 (none, none))]

/-- Quarterly financials with only three reported quarters. -/
def qfW9 : List (String × List ℚ) := [("EBITDA", [10, 20, 30])]


/-- Inversion of a successful single period run: the gate did not trigger,
the cashflow frame was non empty, the lease sum succeeded and the result
is the metrics record built from them. -/
theorem calc_ok_some {inp : StockInput} {m : Metrics}
    (h : calculate_stock_metrics inp = .ok (some m)) :
    ∃ cf op_leases, inp.cashflow = some cf ∧
      opLeasesOf inp.balance_sheet = .ok op_leases ∧ m = mkMetrics inp cf op_leases := by
  unfold calculate_stock_metrics at h
  split at h
  · simp at h
  · split at h
    · simp at h
    · rename_i cf hcf
      split at h
      · simp at h
      · rename_i op hop
        refine ⟨cf, op, hcf, hop, ?_⟩
        simpa using h.symm

/-- Inversion of a successful multi year period: the tax and NOPAT step
succeeded and the record is built from its result. -/
theorem my_ok_some {ev : Option ℚ} {p : MYPeriod} {m : MYMetrics}
    (h : myPeriodMetrics ev p = .ok m) :
    ∃ tn, myTaxNopat p.fin (p.fin.get ("EBIT")) = .ok tn ∧ m = mkMYMetrics ev p tn := by
  unfold myPeriodMetrics at h
  split at h
  · simp at h
  · rename_i tn htn
    exact ⟨tn, htn, by simpa using h.symm⟩

/-- The single period ratio block agrees pointwise with the spec side
restatement of its policy. -/
theorem ratioPolicy_eq_ratioSpec (num den : Option ℚ) :
    ratioPolicy num den = ratioSpec num den := by
  cases num with
  | none =>
    cases den with
    | none => rfl
    | some d => rfl
  | some n =>
    cases den with
    | none => rfl
    | some d =>
      by_cases hd : d = 0
      · simp [ratioPolicy, ratioSpec, hd]
      · simp [ratioPolicy, ratioSpec, hd]

/-- The multi year truthiness ratio agrees pointwise with the spec side
restatement of its policy. -/
theorem ratioTruthy_eq_ratioTruthySpec (num den : Option ℚ) :
    ratioTruthy num den = ratioTruthySpec num den := by
  cases num with
  | none => cases den <;> rfl
  | some n =>
    cases den with
    | none => rfl
    | some d =>
      by_cases hn : n = 0
      · simp [ratioTruthy, ratioTruthySpec, hn]
      · by_cases hd : d = 0 <;> simp [ratioTruthy, ratioTruthySpec, hn, hd]

/-- The clamp used for the tax rate lands in the unit interval. -/
theorem clamp_bounds (x : ℚ) : 0 ≤ max 0 (min 1 x) ∧ max 0 (min 1 x) ≤ 1 :=
  ⟨le_max_left 0 _, max_le (by norm_num) (min_le_left 1 x)⟩

/-- With a non empty financials frame the stored EBIT of the tax and
NOPAT step is the TTM lookup. -/
theorem taxNopatOf_fst (f ttm : SeriesQ) :
    (taxNopatOf (some f) ttm).1 = ttm.get ("EBIT") := by
  unfold taxNopatOf
  cases heb : ttm.get ("EBIT") <;>
    cases ht : ttm.get ("Tax Provision") <;>
      cases hp : ttm.get ("Pretax Income") <;>
        simp [heb, ht, hp] <;> split <;> rfl

/-- Value equation of the tax and NOPAT step on the fully populated
branch. -/
theorem taxNopatOf_eq_some (f ttm : SeriesQ) {e t p : ℚ}
    (heb : ttm.get ("EBIT") = some e) (ht : ttm.get ("Tax Provision") = some t)
    (hp : ttm.get ("Pretax Income") = some p) (hp0 : p ≠ 0) :
    taxNopatOf (some f) ttm =
      (some e, some (max 0 (min 1 (t / p))), some (e * (1 - max 0 (min 1 (t / p))))) := by
  unfold taxNopatOf
  simp [heb, ht, hp, hp0]

/-- A present tax rate of the single period step forces the fully
populated branch. -/
theorem taxNopatOf_rate_some {financials : Option SeriesQ} {ttm : SeriesQ} {r : ℚ}
    (h : (taxNopatOf financials ttm).2.1 = some r) :
    ∃ f e t p, financials = some f ∧ ttm.get ("EBIT") = some e ∧
      ttm.get ("Tax Provision") = some t ∧ ttm.get ("Pretax Income") = some p ∧
      p ≠ 0 ∧ r = max 0 (min 1 (t / p)) := by
  cases financials with
  | none => simp [taxNopatOf] at h
  | some f =>
    unfold taxNopatOf at h
    cases heb : ttm.get ("EBIT") <;>
      cases ht : ttm.get ("Tax Provision") <;>
        cases hp : ttm.get ("Pretax Income") <;>
          simp [heb, ht, hp] at h
    rename_i e t p
    by_cases hp0 : p = 0
    · simp [hp0] at h
    · simp [hp0] at h
      exact ⟨f, e, t, p, rfl, rfl, rfl, rfl, hp0, h.symm⟩

/-- The NOPAT component of the single period step satisfies the spec side
NOPAT equation against the stored EBIT and tax rate. -/
theorem taxNopatOf_nopat (financials : Option SeriesQ) (ttm : SeriesQ) :
    (taxNopatOf financials ttm).2.2 =
      nopatSpec (taxNopatOf financials ttm).1 (taxNopatOf financials ttm).2.1 := by
  cases financials with
  | none => rfl
  | some f =>
    unfold taxNopatOf
    cases heb : ttm.get ("EBIT") <;>
      cases ht : ttm.get ("Tax Provision") <;>
        cases hp : ttm.get ("Pretax Income") <;>
          simp [heb, ht, hp, nopatSpec]
    split <;> simp [nopatSpec]

/-- A successful multi year tax and NOPAT step satisfies the spec side
NOPAT equation and its tax rate is present exactly on the truthy branch. -/
theorem myTaxNopat_ok_char {fin_col : SeriesQ} {ebit : Option ℚ} {tn : Option ℚ × Option ℚ}
    (h : myTaxNopat fin_col ebit = .ok tn) :
    tn.2 = nopatSpec ebit tn.1 ∧
    (tn.1.isSome ↔ ∃ t p, fin_col.get ("Tax Provision") = some t ∧
      fin_col.get ("Pretax Income") = some p ∧ t ≠ 0 ∧ p ≠ 0) := by
  unfold myTaxNopat at h
  split at h
  · rename_i hp
    simp at h
    subst h
    refine ⟨rfl, ?_⟩
    constructor
    · intro hs
      simp at hs
    · rintro ⟨t2, p2, ht2, hp2, ht0, hp0⟩
      simp [hp] at hp2
  · rename_i p hp
    split at h
    · rename_i ht
      simp at h
      subst h
      refine ⟨rfl, ?_⟩
      constructor
      · intro hs
        simp at hs
      · rintro ⟨t2, p2, ht2, hp2, ht0, hp0⟩
        simp [ht] at ht2
    · rename_i t ht
      split at h
      · rename_i hz
        split at h
        · rename_i e
          simp at h
          subst h
          refine ⟨rfl, ?_⟩
          constructor
          · intro hs
            exact ⟨t, p, ht, hp, hz.2, hz.1⟩
          · intro hs
            simp
        · simp at h
      · rename_i hz
        simp at h
        subst h
        refine ⟨rfl, ?_⟩
        constructor
        · intro hs
          simp at hs
        · rintro ⟨t2, p2, ht2, hp2, ht0, hp0⟩
          rw [ht] at ht2
          rw [hp] at hp2
          obtain rfl := Option.some.inj ht2
          obtain rfl := Option.some.inj hp2
          exact absurd ⟨hp0, ht0⟩ hz

/-- Value equation of the multi year tax and NOPAT step on the truthy
branch with a present EBIT. -/
theorem myTaxNopat_eq_some {fin_col : SeriesQ} {e t p : ℚ}
    (ht : fin_col.get ("Tax Provision") = some t) (hp : fin_col.get ("Pretax Income") = some p)
    (ht0 : t ≠ 0) (hp0 : p ≠ 0) :
    myTaxNopat fin_col (some e) =
      .ok (some (max 0 (min 1 (t / p))), some (e * (1 - max 0 (min 1 (t / p))))) := by
  unfold myTaxNopat
  simp [ht, hp, ht0, hp0]

/-- A present tax rate of a successful multi year step is a clamped
quotient. -/
theorem myTaxNopat_rate_clamped {fin_col : SeriesQ} {ebit : Option ℚ}
    {tn : Option ℚ × Option ℚ} {r : ℚ}
    (h : myTaxNopat fin_col ebit = .ok tn) (hr : tn.1 = some r) :
    ∃ x, r = max 0 (min 1 x) := by
  unfold myTaxNopat at h
  split at h
  · simp at h
    subst h
    simp at hr
  · rename_i p hp
    split at h
    · simp at h
      subst h
      simp at hr
    · rename_i t ht
      split at h
      · split at h
        · rename_i e heb
          simp at h
          subst h
          simp at hr
          exact ⟨t / p, hr.symm⟩
        · simp at h
      · simp at h
        subst h
        simp at hr

/-- The TTM series lookup is the four quarter truncated sum of the
corresponding quarterly row. -/
theorem ttmOf_get_eq (qf : List (String × List ℚ)) (k : String) :
    (ttmOf qf).get k = (qLookup qf k).map (fun row => (row.take 4).sum) := by
  induction qf with
  | nil => rfl
  | cons a rest ih =>
    unfold ttmOf SeriesQ.get qLookup at *
    simp only [List.map_cons, List.find?] at *
    cases hak : (a.1 == k) <;> simp [hak] <;> simpa using ih

/-- Python dict insertion of a fresh key appends at the end. -/
theorem dictInsert_of_not_mem (k : ℕ) (v : MYMetrics) (acc : List (ℕ × MYMetrics))
    (h : k ∉ acc.map Prod.fst) : dictInsert k v acc = acc ++ [(k, v)] := by
  induction acc with
  | nil => rfl
  | cons a rest ih =>
    obtain ⟨k0, v0⟩ := a
    simp only [List.map_cons, List.mem_cons] at h
    push_neg at h
    unfold dictInsert
    rw [if_neg (fun he => h.1 he.symm)]
    rw [ih h.2]
    simp

/-- A successful run of the period loop with pairwise distinct labels
appends, after the incoming dictionary, exactly the straight line list of
label and metrics pairs. -/
theorem runPeriods_ok {ev : Option ℚ} :
    ∀ (ps : List MYPeriod) (acc out : List (ℕ × MYMetrics)),
      (acc.map Prod.fst ++ ps.map MYPeriod.label).Nodup →
      runPeriods ev acc ps = .ok out →
      ∃ t, myRunSpec ev ps = some t ∧ out = acc ++ t := by
  intro ps
  induction ps with
  | nil =>
    intro acc out hnd h
    refine ⟨[], rfl, ?_⟩
    simpa [runPeriods] using h.symm
  | cons p rest ih =>
    intro acc out hnd h
    unfold runPeriods at h
    split at h
    · simp at h
    · rename_i m hm
      have hnotin : p.label ∉ acc.map Prod.fst := by
        intro hmem
        rw [List.nodup_append] at hnd
        exact hnd.2.2 hmem (by simp)
      rw [dictInsert_of_not_mem _ _ _ hnotin] at h
      have hnd2 : ((acc ++ [(p.label, m)]).map Prod.fst ++ rest.map MYPeriod.label).Nodup := by
        simpa [List.append_assoc] using hnd
      obtain ⟨t, hspec, hout⟩ := ih (acc ++ [(p.label, m)]) out hnd2 h
      refine ⟨(p.label, m) :: t, ?_, ?_⟩
      · unfold myRunSpec
        rw [hm, hspec]
      · rw [hout]
        simp

/-- The straight line run has one output per period. -/
theorem myRunSpec_length {ev : Option ℚ} :
    ∀ {ps : List MYPeriod} {t}, myRunSpec ev ps = some t → t.length = ps.length := by
  intro ps
  induction ps with
  | nil =>
    intro t h
    simp [myRunSpec] at h
    simp [← h]
  | cons p rest ih =>
    intro t h
    unfold myRunSpec at h
    split at h
    · rename_i m t0 hm hspec
      simp at h
      rw [← h]
      simpa using ih hspec
    · simp at h

/-- Each output of the straight line run carries the label of the period
at the same position and its independently computed metrics. -/
theorem myRunSpec_get {ev : Option ℚ} :
    ∀ {ps : List MYPeriod} {t}, myRunSpec ev ps = some t →
      ∀ i (hi : i < ps.length) (ht : i < t.length),
        (t.get ⟨i, ht⟩).1 = (ps.get ⟨i, hi⟩).label ∧
        myPeriodMetrics ev (ps.get ⟨i, hi⟩) = .ok (t.get ⟨i, ht⟩).2 := by
  intro ps
  induction ps with
  | nil =>
    intro t h i hi
    simp at hi
  | cons p rest ih =>
    intro t h i hi ht
    unfold myRunSpec at h
    split at h
    · rename_i m t0 hm hspec
      simp at h
      subst h
      cases i with
      | zero => exact ⟨rfl, hm⟩
      | succ j =>
        simp only [List.get_cons_succ]
        exact ih hspec j (by simpa using hi) (by simpa using ht)
    · simp at h

/-- C1: the specification states that for every input period a missing raw
field makes the derived metric absent and the engine never raises, every
arithmetic path, the NOPAT computation with an absent EBIT and the capital
lease summation included, having a defined absent, zero or infinity
outcome. The code contradicts this: with a non empty balance sheet missing
one capital lease line item the single period engine raises TypeError at
the uncaught lease addition, and the multi year engine raises TypeError in
the NOPAT step when EBIT is absent while pretax income and tax provision
are present and nonzero. -/
theorem spec_C1_engine_raises :
    calculate_stock_metrics inpC1 = .error () ∧
    inpC1.balance_sheet = some bsC1 ∧
    bsC1.get ("Current Capital Lease Obligation") = none ∧
    calculate_stock_metrics_multiyear none [pC1] = .error () ∧
    pC1.fin.get ("EBIT") = none ∧
    pC1.fin.get ("Pretax Income") = some 250 ∧
    pC1.fin.get ("Tax Provision") = some 50 := by
  refine ⟨?_, rfl, ?_, ?_, ?_, ?_, ?_⟩
  · simp [calculate_stock_metrics, inpC1, opLeasesOf, bsC1, SeriesQ.get, List.find?]
  · simp [bsC1, SeriesQ.get, List.find?]
  · simp [calculate_stock_metrics_multiyear, runPeriods, myPeriodMetrics, myTaxNopat,
      pC1, SeriesQ.get, List.find?]
  · simp [pC1, SeriesQ.get, List.find?]
  · simp [pC1, SeriesQ.get, List.find?]
  · simp [pC1, SeriesQ.get, List.find?]

/-- C2 (amended): on every successful single period run the four ratios obey
one identical policy, the one of ratioSpec: absent when the denominator is
absent, or when the numerator is absent and the denominator is nonzero; on
a zero denominator, the positive infinity sentinel when the numerator is
present and positive and 0 in every other case, an absent or negative
numerator included; plain division otherwise. On every successful multi
year period the four ratios instead obey the truthiness policy of
ratioTruthySpec: plain division when both operands are present and
nonzero, absent otherwise, never an infinity sentinel. -/
theorem spec_C2_ratio_policy :
    (∀ (inp : StockInput) (m : Metrics), calculate_stock_metrics inp = .ok (some m) →
      m.ev_fcf_yield = ratioSpec m.fcf m.ev ∧
      m.debt_to_ebitda = ratioSpec m.total_debt m.ebitda ∧
      m.ev_to_ebitda = ratioSpec m.ev m.ebitda ∧
      m.roic = ratioSpec m.nopat m.invested_capital) ∧
    (∀ (ev : Option ℚ) (p : MYPeriod) (m : MYMetrics), myPeriodMetrics ev p = .ok m →
      m.ev_fcf_yield = ratioTruthySpec m.fcf m.ev ∧
      m.debt_to_ebitda = ratioTruthySpec m.total_debt m.ebitda ∧
      m.ev_to_ebitda = ratioTruthySpec m.ev m.ebitda ∧
      m.roic = ratioTruthySpec m.nopat m.invested_capital) := by
  constructor
  · intro inp m h
    obtain ⟨cf, op, hcf, hop, hm⟩ := calc_ok_some h
    subst hm
    exact ⟨ratioPolicy_eq_ratioSpec _ _, ratioPolicy_eq_ratioSpec _ _,
           ratioPolicy_eq_ratioSpec _ _, ratioPolicy_eq_ratioSpec _ _⟩
  · intro ev p m h
    obtain ⟨tn, htn, hm⟩ := my_ok_some h
    subst hm
    exact ⟨ratioTruthy_eq_ratioTruthySpec _ _, ratioTruthy_eq_ratioTruthySpec _ _,
           ratioTruthy_eq_ratioTruthySpec _ _, ratioTruthy_eq_ratioTruthySpec _ _⟩

/-- C2 counterexample: in the multi year engine a present total debt of 300
over a present EBITDA of 0 leaves the ratio absent, not the positive
infinity sentinel the claim requires for a positive numerator over a zero
denominator. -/
theorem spec_C2_cex :
    myPeriodMetrics none pC2 = .ok mC2 ∧ mC2.total_debt = some 300 ∧
    mC2.ebitda = some 0 ∧ mC2.debt_to_ebitda = none := by
  refine ⟨?_, ?_, ?_, ?_⟩ <;>
    simp [myPeriodMetrics, myTaxNopat, pC2, mC2, mkMYMetrics, ratioTruthy,
      SeriesQ.get, List.find?]

/-- C2 witness: the amended ratio policy instantiated on concrete successful
runs of both engines. -/
theorem spec_C2_witness :
    (calculate_stock_metrics inpW2 = .ok (some mW2) ∧
      (mW2.ev_fcf_yield = ratioSpec mW2.fcf mW2.ev ∧
       mW2.debt_to_ebitda = ratioSpec mW2.total_debt mW2.ebitda ∧
       mW2.ev_to_ebitda = ratioSpec mW2.ev mW2.ebitda ∧
       mW2.roic = ratioSpec mW2.nopat mW2.invested_capital)) ∧
    (myPeriodMetrics (some 1000) pW5 = .ok mW5 ∧
      (mW5.ev_fcf_yield = ratioTruthySpec mW5.fcf mW5.ev ∧
       mW5.debt_to_ebitda = ratioTruthySpec mW5.total_debt mW5.ebitda ∧
       mW5.ev_to_ebitda = ratioTruthySpec mW5.ev mW5.ebitda ∧
       mW5.roic = ratioTruthySpec mW5.nopat mW5.invested_capital)) := by
  have h1 : calculate_stock_metrics inpW2 = .ok (some mW2) := by
    simp [calculate_stock_metrics, inpW2, mW2, mkMetrics, opLeasesOf, bsW2,
      SeriesQ.get, SeriesQ.getD, List.find?]
    norm_num
  have h2 : myPeriodMetrics (some 1000) pW5 = .ok mW5 := by
    simp [myPeriodMetrics, myTaxNopat, pW5, mW5, SeriesQ.get, List.find?]
  exact ⟨⟨h1, spec_C2_ratio_policy.1 inpW2 mW2 h1⟩,
         ⟨h2, spec_C2_ratio_policy.2 (some 1000) pW5 mW5 h2⟩⟩

/-- C3: whenever the tax rate is present in the output of either engine it
lies in the closed unit interval, for every combination of present tax
provision and pretax income values, negative ones included. -/
theorem spec_C3_tax_rate_bounds :
    (∀ (inp : StockInput) (m : Metrics) (r : ℚ),
      calculate_stock_metrics inp = .ok (some m) → m.tax_rate = some r →
      0 ≤ r ∧ r ≤ 1) ∧
    (∀ (ev : Option ℚ) (p : MYPeriod) (m : MYMetrics) (r : ℚ),
      myPeriodMetrics ev p = .ok m → m.tax_rate = some r → 0 ≤ r ∧ r ≤ 1) := by
  constructor
  · intro inp m r h hr
    obtain ⟨cf, op, hcf, hop, hm⟩ := calc_ok_some h
    subst hm
    have hr2 : (taxNopatOf inp.financials (ttmOf inp.quarterly_financials)).2.1 = some r := hr
    obtain ⟨f, e, t, p, hf, heb, ht, hp, hp0, hrx⟩ := taxNopatOf_rate_some hr2
    rw [hrx]
    exact clamp_bounds _
  · intro ev p m r h hr
    obtain ⟨tn, htn, hm⟩ := my_ok_some h
    subst hm
    have hr2 : tn.1 = some r := hr
    obtain ⟨x, hx⟩ := myTaxNopat_rate_clamped htn hr2
    rw [hx]
    exact clamp_bounds _

/-- C3 witness: the bounds instantiated at a concrete run with tax rate one
fifth. -/
theorem spec_C3_witness :
    calculate_stock_metrics inpW2 = .ok (some mW2) ∧ mW2.tax_rate = some (1 / 5) ∧
    (0 ≤ (1 / 5 : ℚ) ∧ (1 / 5 : ℚ) ≤ 1) := by
  have h1 : calculate_stock_metrics inpW2 = .ok (some mW2) := by
    simp [calculate_stock_metrics, inpW2, mW2, mkMetrics, opLeasesOf, bsW2,
      SeriesQ.get, SeriesQ.getD, List.find?]
    norm_num
  have h2 : mW2.tax_rate = some (1 / 5) := by
    simp [mW2, mkMetrics, inpW2, taxNopatOf, ttmOf, qfW2, SeriesQ.get, List.find?]
    norm_num [min_def, max_def]
  exact ⟨h1, h2, spec_C3_tax_rate_bounds.1 inpW2 mW2 (1 / 5) h1 h2⟩

/-- C4 (amended): in the single period engine the tax rate is the clamped
quotient of the TTM tax provision by the TTM pretax income exactly when the
financials frame is non empty, EBIT, tax provision and pretax income are
all present and the pretax income is nonzero; in the multi year engine it
is computed exactly when tax provision and pretax income are present and
both nonzero. In both engines NOPAT is ebit times one minus the tax rate
exactly when ebit and the tax rate are both present. The worked example
and the absence on a zero pretax income follow as instances. -/
theorem spec_C4_tax_nopat :
    (∀ (inp : StockInput) (m : Metrics), calculate_stock_metrics inp = .ok (some m) →
      m.nopat = nopatSpec m.ebit m.tax_rate ∧
      (m.tax_rate.isSome ↔ (inp.financials.isSome ∧ ∃ e t q,
        (ttmOf inp.quarterly_financials).get ("EBIT") = some e ∧
        (ttmOf inp.quarterly_financials).get ("Tax Provision") = some t ∧
        (ttmOf inp.quarterly_financials).get ("Pretax Income") = some q ∧ q ≠ 0)) ∧
      (∀ (f : SeriesQ) (e t q : ℚ), inp.financials = some f →
        (ttmOf inp.quarterly_financials).get ("EBIT") = some e →
        (ttmOf inp.quarterly_financials).get ("Tax Provision") = some t →
        (ttmOf inp.quarterly_financials).get ("Pretax Income") = some q → q ≠ 0 →
        m.tax_rate = some (max 0 (min 1 (t / q))) ∧
        m.nopat = some (e * (1 - max 0 (min 1 (t / q)))))) ∧
    (∀ (ev : Option ℚ) (p : MYPeriod) (m : MYMetrics), myPeriodMetrics ev p = .ok m →
      m.nopat = nopatSpec m.ebit m.tax_rate ∧
      (m.tax_rate.isSome ↔ ∃ t q, p.fin.get ("Tax Provision") = some t ∧
        p.fin.get ("Pretax Income") = some q ∧ t ≠ 0 ∧ q ≠ 0) ∧
      (∀ (e t q : ℚ), p.fin.get ("EBIT") = some e →
        p.fin.get ("Tax Provision") = some t → p.fin.get ("Pretax Income") = some q →
        t ≠ 0 → q ≠ 0 →
        m.tax_rate = some (max 0 (min 1 (t / q))) ∧
        m.nopat = some (e * (1 - max 0 (min 1 (t / q)))))) := by
  constructor
  · intro inp m h
    obtain ⟨cf, op, hcf, hop, hm⟩ := calc_ok_some h
    subst hm
    refine ⟨taxNopatOf_nopat inp.financials (ttmOf inp.quarterly_financials), ?_, ?_⟩
    · constructor
      · intro hs
        obtain ⟨r, hr⟩ := Option.isSome_iff_exists.mp hs
        obtain ⟨f, e, t, q, hf, heb, ht, hq, hq0, hrx⟩ := taxNopatOf_rate_some hr
        exact ⟨by rw [hf]; rfl, e, t, q, heb, ht, hq, hq0⟩
      · rintro ⟨hfs, e, t, q, heb, ht, hq, hq0⟩
        obtain ⟨f, hf⟩ := Option.isSome_iff_exists.mp hfs
        show (taxNopatOf inp.financials (ttmOf inp.quarterly_financials)).2.1.isSome
        rw [hf, taxNopatOf_eq_some f (ttmOf inp.quarterly_financials) heb ht hq hq0]
        rfl
    · intro f e t q hf heb ht hq hq0
      have heq := taxNopatOf_eq_some f (ttmOf inp.quarterly_financials) heb ht hq hq0
      constructor
      · show (taxNopatOf inp.financials (ttmOf inp.quarterly_financials)).2.1 = _
        rw [hf, heq]
      · show (taxNopatOf inp.financials (ttmOf inp.quarterly_financials)).2.2 = _
        rw [hf, heq]
  · intro ev p m h
    obtain ⟨tn, htn, hm⟩ := my_ok_some h
    subst hm
    obtain ⟨hnp, hiff⟩ := myTaxNopat_ok_char htn
    refine ⟨hnp, hiff, ?_⟩
    intro e t q heb ht hq ht0 hq0
    rw [heb, myTaxNopat_eq_some ht hq ht0 hq0] at htn
    have htn2 := htn
    simp only [Except.ok.injEq] at htn2
    subst htn2
    exact ⟨rfl, rfl⟩

/-- C4 counterexample: a single period input with present nonzero TTM tax
provision and pretax income but an absent EBIT leaves the tax rate absent,
while the claim demands the clamped quotient whenever tax provision and
pretax income are present and the latter is nonzero. -/
theorem spec_C4_cex :
    calculate_stock_metrics inpC4 = .ok (some mC4) ∧
    (ttmOf inpC4.quarterly_financials).get ("Tax Provision") = some 50 ∧
    (ttmOf inpC4.quarterly_financials).get ("Pretax Income") = some 250 ∧
    mC4.tax_rate = none := by
  refine ⟨?_, ?_, ?_, ?_⟩
  · simp [calculate_stock_metrics, inpC4, mC4, opLeasesOf, SeriesQ.get, List.find?]
  · simp [ttmOf, inpC4, SeriesQ.get, List.find?]
  · simp [ttmOf, inpC4, SeriesQ.get, List.find?]
  · simp [mC4, mkMetrics, inpC4, taxNopatOf, ttmOf, SeriesQ.get, List.find?]

/-- C4 witness: the worked example with EBIT 200, pretax income 250 and tax
provision 50 yields tax rate one fifth and NOPAT 160, and the NOPAT
equation of the amended claim holds there. -/
theorem spec_C4_witness :
    calculate_stock_metrics inpW4 = .ok (some mW4) ∧
    mW4.nopat = nopatSpec mW4.ebit mW4.tax_rate ∧
    mW4.tax_rate = some (1 / 5) ∧ mW4.nopat = some 160 := by
  have h1 : calculate_stock_metrics inpW4 = .ok (some mW4) := by
    simp [calculate_stock_metrics, inpW4, mW4, opLeasesOf, SeriesQ.get, List.find?]
  refine ⟨h1, (spec_C4_tax_nopat.1 inpW4 mW4 h1).1, ?_, ?_⟩
  · simp [mW4, mkMetrics, inpW4, taxNopatOf, ttmOf, qfW4, SeriesQ.get, List.find?]
    norm_num [min_def, max_def]
  · simp [mW4, mkMetrics, inpW4, taxNopatOf, ttmOf, qfW4, SeriesQ.get, List.find?]
    norm_num [min_def, max_def]

/-- C5 (amended): in the multi year engine the derived free cash flow is
the free cash flow line minus the capital expenditure line when both are
present and absent otherwise, and the worked example yields 100 with a ten
percent yield; the single period engine instead reports the free cash flow
line item alone, with no capital expenditure subtraction. -/
theorem spec_C5_fcf :
    (∀ (ev : Option ℚ) (p : MYPeriod) (m : MYMetrics), myPeriodMetrics ev p = .ok m →
      m.fcf = (match p.cf.get ("Free Cash Flow"), p.cf.get ("Capital Expenditure") with
               | some f, some c => some (f - c)
               | _, _ => none)) ∧
    (∀ (inp : StockInput) (cf : SeriesQ) (m : Metrics), inp.cashflow = some cf →
      calculate_stock_metrics inp = .ok (some m) → m.fcf = cf.get ("Free Cash Flow")) := by
  constructor
  · intro ev p m h
    obtain ⟨tn, htn, hm⟩ := my_ok_some h
    subst hm
    show myFcf p.cf = _
    unfold myFcf
    cases hf : p.cf.get ("Free Cash Flow") <;>
      cases hc : p.cf.get ("Capital Expenditure") <;> rfl
  · intro inp cf m hcf h
    obtain ⟨cf0, op, hcf0, hop, hm⟩ := calc_ok_some h
    subst hm
    rw [hcf] at hcf0
    obtain rfl := Option.some.inj hcf0
    rfl

/-- C5 counterexample: on the single period engine the input with free cash
flow 120, capital expenditure 20 and enterprise value 1000 yields fcf 120
and a yield of twelve percent, not the fcf 100 and ten percent the claim
demands. -/
theorem spec_C5_cex :
    calculate_stock_metrics inpC5 = .ok (some mC5) ∧
    cfC5.get ("Free Cash Flow") = some 120 ∧
    cfC5.get ("Capital Expenditure") = some 20 ∧
    mC5.ev = some 1000 ∧
    mC5.fcf = some 120 ∧
    mC5.ev_fcf_yield = some (.fin (3 / 25)) := by
  refine ⟨?_, ?_, ?_, ?_, ?_, ?_⟩
  · simp [calculate_stock_metrics, inpC5, mC5, opLeasesOf, SeriesQ.get, List.find?]
  · simp [cfC5, SeriesQ.get, List.find?]
  · simp [cfC5, SeriesQ.get, List.find?]
  · simp [mC5, mkMetrics, inpC5]
  · simp [mC5, mkMetrics, inpC5, cfC5, SeriesQ.get, List.find?]
  · simp [mC5, mkMetrics, inpC5, cfC5, ratioPolicy, SeriesQ.get, List.find?]
    norm_num

/-- C5 witness: the multi year engine on the worked example, with both line
items present, yields fcf 100 and a yield of one tenth. -/
theorem spec_C5_witness :
    myPeriodMetrics (some 1000) pW5 = .ok mW5 ∧
    mW5.fcf = (match pW5.cf.get ("Free Cash Flow"), pW5.cf.get ("Capital Expenditure") with
               | some f, some c => some (f - c)
               | _, _ => none) ∧
    mW5.fcf = some 100 ∧ mW5.ev_fcf_yield = some (1 / 10) := by
  have h1 : myPeriodMetrics (some 1000) pW5 = .ok mW5 := by
    simp [myPeriodMetrics, myTaxNopat, pW5, mW5, SeriesQ.get, List.find?]
  refine ⟨h1, spec_C5_fcf.1 (some 1000) pW5 mW5 h1, ?_, ?_⟩
  · simp [mW5, mkMYMetrics, myFcf, pW5, cfC5, SeriesQ.get, List.find?]
    norm_num
  · simp [mW5, mkMYMetrics, myFcf, pW5, cfC5, ratioTruthy, SeriesQ.get, List.find?]
    norm_num

/-- C6: in the single period engine invested capital is debt plus equity
plus the operating lease sum whenever debt and equity are both present,
the lease sum being added only when positive and defaulting to 0 when the
balance sheet is unavailable, and invested capital is absent whenever debt
or equity is absent; in the multi year engine, which never extracts lease
line items, it is debt plus equity under the same presence conditions. -/
theorem spec_C6_invested_capital :
    (∀ (inp : StockInput) (m : Metrics), calculate_stock_metrics inp = .ok (some m) →
      m.invested_capital =
        (match m.total_debt, m.total_equity with
         | some d, some e =>
           some (d + e + (if 0 < m.op_lease_liabilities then m.op_lease_liabilities else 0))
         | _, _ => none)) ∧
    (∀ (ev : Option ℚ) (p : MYPeriod) (m : MYMetrics), myPeriodMetrics ev p = .ok m →
      m.invested_capital =
        (match m.total_debt, m.total_equity with
         | some d, some e => some (d + e)
         | _, _ => none)) := by
  constructor
  · intro inp m h
    obtain ⟨cf, op, hcf, hop, hm⟩ := calc_ok_some h
    subst hm
    show investedCapitalOf (totalDebtOf inp.info.totalDebt inp.balance_sheet)
        (totalEquityOf inp.balance_sheet) op =
      (match totalDebtOf inp.info.totalDebt inp.balance_sheet,
             totalEquityOf inp.balance_sheet with
       | some d, some e => some (d + e + (if 0 < op then op else 0))
       | _, _ => none)
    cases totalDebtOf inp.info.totalDebt inp.balance_sheet <;>
      cases totalEquityOf inp.balance_sheet <;>
        simp [investedCapitalOf]
    split_ifs <;> simp [add_assoc]
  · intro ev p m h
    obtain ⟨tn, htn, hm⟩ := my_ok_some h
    subst hm
    show investedCapitalMY (p.bs.get ("Total Debt"))
        (p.bs.get ("Total Equity Gross Minority Interest")) =
      (match p.bs.get ("Total Debt"),
             p.bs.get ("Total Equity Gross Minority Interest") with
       | some d, some e => some (d + e)
       | _, _ => none)
    cases p.bs.get ("Total Debt") <;>
      cases p.bs.get ("Total Equity Gross Minority Interest") <;> rfl

/-- C6 witness: invested capital 840 equal to debt 300 plus equity 500 plus
the positive lease sum 40 on a concrete run. -/
theorem spec_C6_witness :
    calculate_stock_metrics inpW2 = .ok (some mW2) ∧
    mW2.invested_capital =
      (match mW2.total_debt, mW2.total_equity with
       | some d, some e =>
         some (d + e + (if 0 < mW2.op_lease_liabilities then mW2.op_lease_liabilities else 0))
       | _, _ => none) ∧
    mW2.invested_capital = some 840 := by
  have h1 : calculate_stock_metrics inpW2 = .ok (some mW2) := by
    simp [calculate_stock_metrics, inpW2, mW2, mkMetrics, opLeasesOf, bsW2,
      SeriesQ.get, SeriesQ.getD, List.find?]
    norm_num
  refine ⟨h1, spec_C6_invested_capital.1 inpW2 mW2 h1, ?_⟩
  simp [mW2, mkMetrics, inpW2, investedCapitalOf, totalDebtOf, totalEquityOf, bsW2,
    SeriesQ.get, SeriesQ.getD, List.find?]
  norm_num

/-- C7 (amended): the single period engine prefers the directly reported
aggregate debt figure when the profile exposes one; otherwise, with a non
empty balance sheet, total debt is the sum of the short term and long term
components with each missing component silently defaulted to 0, so the
fallback sum is always taken; total debt is absent only when the balance
sheet is empty. -/
theorem spec_C7_total_debt (inp : StockInput) (m : Metrics)
    (h : calculate_stock_metrics inp = .ok (some m)) :
    m.total_debt =
      (match inp.balance_sheet with
       | none => none
       | some bs =>
         some (match inp.info.totalDebt with
               | some td => td
               | none => bs.getD ("Short Long Term Debt") 0 + bs.getD ("Long Term Debt") 0)) := by
  obtain ⟨cf, op, hcf, hop, hm⟩ := calc_ok_some h
  subst hm
  show totalDebtOf inp.info.totalDebt inp.balance_sheet = _
  cases hbs : inp.balance_sheet <;> cases hd : inp.info.totalDebt <;> rfl

/-- C7 counterexample: with a non empty balance sheet exposing neither debt
component and no direct aggregate figure, total debt is the present value
0, not absent, so a missing component is silently treated as zero. -/
theorem spec_C7_cex :
    calculate_stock_metrics inpC7 = .ok (some mC7) ∧
    inpC7.info.totalDebt = none ∧
    inpC7.balance_sheet = some bsC7 ∧
    bsC7.get ("Short Long Term Debt") = none ∧
    bsC7.get ("Long Term Debt") = none ∧
    mC7.total_debt = some 0 := by
  refine ⟨?_, rfl, rfl, ?_, ?_, ?_⟩
  · simp [calculate_stock_metrics, inpC7, mC7, opLeasesOf, bsC7, SeriesQ.get, List.find?]
  · simp [bsC7, SeriesQ.get, List.find?]
  · simp [bsC7, SeriesQ.get, List.find?]
  · simp [mC7, mkMetrics, inpC7, infoNone, totalDebtOf, bsC7, SeriesQ.get, SeriesQ.getD,
      List.find?]

/-- C7 witness: the amended resolution instantiated on a run where the
profile exposes the direct figure 300. -/
theorem spec_C7_witness :
    calculate_stock_metrics inpW2 = .ok (some mW2) ∧
    mW2.total_debt =
      (match inpW2.balance_sheet with
       | none => none
       | some bs =>
         some (match inpW2.info.totalDebt with
               | some td => td
               | none => bs.getD ("Short Long Term Debt") 0 + bs.getD ("Long Term Debt") 0)) ∧
    mW2.total_debt = some 300 := by
  have h1 : calculate_stock_metrics inpW2 = .ok (some mW2) := by
    simp [calculate_stock_metrics, inpW2, mW2, mkMetrics, opLeasesOf, bsW2,
      SeriesQ.get, SeriesQ.getD, List.find?]
    norm_num
  refine ⟨h1, spec_C7_total_debt inpW2 mW2 h1, ?_⟩
  simp [mW2, mkMetrics, inpW2, totalDebtOf, bsW2, SeriesQ.get, SeriesQ.getD, List.find?]

/-- C8 (amended): when every period of an ordered sequence with pairwise
distinct labels computes without a runtime failure, the multi year
invocation returns exactly one output record per input period, in input
order, each consisting of that period label and the metrics computed from
that period alone; a failing period instead aborts the whole invocation
with no records. -/
theorem spec_C8_multiyear (ev : Option ℚ) (ps : List MYPeriod) (out : List (ℕ × MYMetrics))
    (hnd : (ps.map MYPeriod.label).Nodup)
    (h : calculate_stock_metrics_multiyear ev ps = .ok out) :
    out.length = ps.length ∧
    ∀ i (hi : i < ps.length) (ho : i < out.length),
      (out.get ⟨i, ho⟩).1 = (ps.get ⟨i, hi⟩).label ∧
      myPeriodMetrics ev (ps.get ⟨i, hi⟩) = .ok (out.get ⟨i, ho⟩).2 := by
  unfold calculate_stock_metrics_multiyear at h
  obtain ⟨t, hspec, hout⟩ := runPeriods_ok ps [] out (by simpa using hnd) h
  subst hout
  refine ⟨myRunSpec_length hspec, ?_⟩
  intro i hi ho
  exact myRunSpec_get hspec i hi (by simpa using ho)

/-- C8 counterexample: a two period sequence whose second period has an
absent EBIT with present nonzero pretax income and tax provision makes the
whole invocation raise, returning no records instead of two. -/
theorem spec_C8_cex :
    calculate_stock_metrics_multiyear none [pOk8, pC1] = .error () := by
  simp [calculate_stock_metrics_multiyear, runPeriods, myPeriodMetrics, myTaxNopat,
    dictInsert, pOk8, pC1, SeriesQ.get, List.find?]

/-- C8 witness: two benign periods with distinct labels produce exactly two
records. -/
theorem spec_C8_witness :
    ([pOk8, pW8].map MYPeriod.label).Nodup ∧
    calculate_stock_metrics_multiyear none [pOk8, pW8] = .ok outW8 ∧
    outW8.length = [pOk8, pW8].length := by
  have hnd : ([pOk8, pW8].map MYPeriod.label).Nodup := by simp [pOk8, pW8]
  have h : calculate_stock_metrics_multiyear none [pOk8, pW8] = .ok outW8 := by
    simp [calculate_stock_metrics_multiyear, runPeriods, myPeriodMetrics, myTaxNopat,
      dictInsert, pOk8, pW8, outW8, SeriesQ.get, List.find?]
  exact ⟨hnd, h, (spec_C8_multiyear none [pOk8, pW8] outW8 hnd h).1⟩

/-- C9: in the trailing twelve month view the EBITDA, EBIT, pretax income
and tax provision figures are the sums of the four most recent reported
quarterly columns; when fewer than four columns exist the sum covers
whatever exists, with no hard minimum; the engine output exposes exactly
these sums through its EBITDA, EBIT and clamped tax rate fields. -/
theorem spec_C9_ttm :
    (∀ (qf : List (String × List ℚ)) (k : String) (row : List ℚ),
      qLookup qf k = some row → (ttmOf qf).get k = some ((row.take 4).sum)) ∧
    (∀ (qf : List (String × List ℚ)) (k : String) (row : List ℚ),
      qLookup qf k = some row → row.length ≤ 4 → (ttmOf qf).get k = some row.sum) ∧
    (∀ (inp : StockInput) (m : Metrics), calculate_stock_metrics inp = .ok (some m) →
      m.ebitda = (ttmOf inp.quarterly_financials).get ("EBITDA") ∧
      (∀ f, inp.financials = some f → m.ebit = (ttmOf inp.quarterly_financials).get ("EBIT")) ∧
      (∀ (f : SeriesQ) (e t q : ℚ), inp.financials = some f →
        (ttmOf inp.quarterly_financials).get ("EBIT") = some e →
        (ttmOf inp.quarterly_financials).get ("Tax Provision") = some t →
        (ttmOf inp.quarterly_financials).get ("Pretax Income") = some q → q ≠ 0 →
        m.tax_rate = some (max 0 (min 1 (t / q))))) := by
  refine ⟨?_, ?_, ?_⟩
  · intro qf k row hrow
    rw [ttmOf_get_eq, hrow]
    rfl
  · intro qf k row hrow hlen
    rw [ttmOf_get_eq, hrow]
    simp [List.take_of_length_le hlen]
  · intro inp m h
    obtain ⟨cf, op, hcf, hop, hm⟩ := calc_ok_some h
    subst hm
    refine ⟨rfl, ?_, ?_⟩
    · intro f hf
      show (taxNopatOf inp.financials (ttmOf inp.quarterly_financials)).1 = _
      rw [hf]
      exact taxNopatOf_fst f _
    · intro f e t q hf heb ht hq hq0
      show (taxNopatOf inp.financials (ttmOf inp.quarterly_financials)).2.1 = _
      rw [hf, taxNopatOf_eq_some f (ttmOf inp.quarterly_financials) heb ht hq hq0]

/-- C9 witness: a row of three reported quarters sums over all three. -/
theorem spec_C9_witness :
    qLookup qfW9 ("EBITDA") = some ([10, 20, 30] : List ℚ) ∧
    (([10, 20, 30] : List ℚ)).length ≤ 4 ∧
    (ttmOf qfW9).get ("EBITDA") = some (([10, 20, 30] : List ℚ)).sum := by
  have h1 : qLookup qfW9 ("EBITDA") = some ([10, 20, 30] : List ℚ) := by
    simp [qLookup, qfW9, List.find?]
  exact ⟨h1, by norm_num, spec_C9_ttm.2.1 qfW9 ("EBITDA") _ h1 (by norm_num)⟩

/-- C10: in the single period engine, whenever the balance sheet is non
empty and the profile exposes no direct aggregate debt figure, the two
debt components default to 0 when missing, so total debt is always the
present sum of the defaulted components, conflating absent components with
zero at the public interface. -/
theorem spec_C10_debt_default (inp : StockInput) (bs : SeriesQ) (m : Metrics)
    (hbs : inp.balance_sheet = some bs) (hdir : inp.info.totalDebt = none)
    (h : calculate_stock_metrics inp = .ok (some m)) :
    m.total_debt = some (bs.getD ("Short Long Term Debt") 0 + bs.getD ("Long Term Debt") 0) ∧
    m.total_debt.isSome := by
  obtain ⟨cf, op, hcf, hop, hm⟩ := calc_ok_some h
  subst hm
  have h1 : (mkMetrics inp cf op).total_debt
      = some (bs.getD ("Short Long Term Debt") 0 + bs.getD ("Long Term Debt") 0) := by
    show totalDebtOf inp.info.totalDebt inp.balance_sheet = _
    rw [hbs, hdir]
    simp [totalDebtOf]
  exact ⟨h1, by rw [h1]; rfl⟩

/-- C10 witness: a non empty balance sheet with no debt rows and no direct
figure yields the present total debt 0. -/
theorem spec_C10_witness :
    inpC7.balance_sheet = some bsC7 ∧ inpC7.info.totalDebt = none ∧
    calculate_stock_metrics inpC7 = .ok (some mC7) ∧
    mC7.total_debt = some (bsC7.getD ("Short Long Term Debt") 0 + bsC7.getD ("Long Term Debt") 0) := by
  have h1 : calculate_stock_metrics inpC7 = .ok (some mC7) := by
    simp [calculate_stock_metrics, inpC7, mC7, opLeasesOf, bsC7, SeriesQ.get, List.find?]
  exact ⟨rfl, rfl, h1, (spec_C10_debt_default inpC7 bsC7 mC7 rfl rfl h1).1⟩

